import Mathlib

/-!
Verification development for the `better-auth-opaque` plugin
(`src/utils.ts`, `src/server.ts`).

Strings are modelled as `List Char`; byte sizes use UTF-8 sizes as in
`Buffer.byteLength(input, "utf8")`.  The symmetric cipher
(`symmetricEncrypt` / `symmetricDecrypt` from `better-auth/crypto`) and the
OPAQUE engine (`@serenity-kit/opaque`) are external collaborators, modelled
as function bundles; the JSON codec (`JSON.stringify` / `JSON.parse`, a
platform builtin) is modelled as the exact JSON text the payload shape
produces, with a parser for that shape that tolerates trailing whitespace,
as `JSON.parse` does.
-/

set_option maxRecDepth 100000

namespace BetterAuthOpaque

abbrev Str := List Char

/-- `\x7b`, written via `Char.ofNat` for clarity of the code point. -/
def lbrace : Char := Char.ofNat 123

/-- `\x7d`. -/
def rbrace : Char := Char.ofNat 125

/-- UTF-8 byte size of one character, as used by `Buffer.byteLength`. -/
def utf8Size (c : Char) : Nat :=
  if c.toNat < 128 then 1
  else if c.toNat < 2048 then 2
  else if c.toNat < 65536 then 3
  else 4

/-- `Buffer.byteLength(input, "utf8")` over the `List Char` string model. -/
def byteLength (s : Str) : Nat := (s.map utf8Size).sum

/-- Lower-case hex digit (also used for decimal digits 0-9). -/
def hexDigitChar (n : Nat) : Char :=
  if n < 10 then Char.ofNat (48 + n) else Char.ofNat (87 + n)

/-- Value of a decimal digit character. -/
def digitVal (c : Char) : Option Nat :=
  if 48 ≤ c.toNat ∧ c.toNat ≤ 57 then some (c.toNat - 48) else none

/-- Value of a hex digit character (upper or lower case). -/
def unhex (c : Char) : Option Nat :=
  if 48 ≤ c.toNat ∧ c.toNat ≤ 57 then some (c.toNat - 48)
  else if 97 ≤ c.toNat ∧ c.toNat ≤ 102 then some (c.toNat - 87)
  else if 65 ≤ c.toNat ∧ c.toNat ≤ 70 then some (c.toNat - 55)
  else none

/-- JSON string escaping of one character, as `JSON.stringify` performs it
(quote, backslash, the five short control escapes, `\u00xx` for the other
control characters). -/
def escapeChar (c : Char) : Str :=
  if c = '"' then ['\\', '"']
  else if c = '\\' then ['\\', '\\']
  else if c = Char.ofNat 8 then ['\\', 'b']
  else if c = Char.ofNat 9 then ['\\', 't']
  else if c = Char.ofNat 10 then ['\\', 'n']
  else if c = Char.ofNat 12 then ['\\', 'f']
  else if c = Char.ofNat 13 then ['\\', 'r']
  else if c.toNat < 32 then
    ['\\', 'u', '0', '0', hexDigitChar (c.toNat / 16), hexDigitChar (c.toNat % 16)]
  else [c]

/-- JSON string escaping of a whole string. -/
def escapeStr : Str → Str
  | [] => []
  | c :: s => escapeChar c ++ escapeStr s

/-- Parse the body of a JSON string literal up to (and consuming) the closing
quote; returns the decoded string and the remaining input. -/
def parseLitAux : Str → Option (Str × Str)
  | [] => none
  | c :: rest =>
    if c = '"' then some ([], rest)
    else if c = '\\' then
      match rest with
      | [] => none
      | e :: rest2 =>
        if e = '"' then (parseLitAux rest2).map (fun p => ('"' :: p.1, p.2))
        else if e = '\\' then (parseLitAux rest2).map (fun p => ('\\' :: p.1, p.2))
        else if e = '/' then (parseLitAux rest2).map (fun p => ('/' :: p.1, p.2))
        else if e = 'b' then (parseLitAux rest2).map (fun p => (Char.ofNat 8 :: p.1, p.2))
        else if e = 't' then (parseLitAux rest2).map (fun p => (Char.ofNat 9 :: p.1, p.2))
        else if e = 'n' then (parseLitAux rest2).map (fun p => (Char.ofNat 10 :: p.1, p.2))
        else if e = 'f' then (parseLitAux rest2).map (fun p => (Char.ofNat 12 :: p.1, p.2))
        else if e = 'r' then (parseLitAux rest2).map (fun p => (Char.ofNat 13 :: p.1, p.2))
        else if e = 'u' then
          match rest2 with
          | h1 :: h2 :: h3 :: h4 :: rest3 =>
            match unhex h1, unhex h2, unhex h3, unhex h4 with
            | some a, some b, some c2, some d =>
              (parseLitAux rest3).map
                (fun p => (Char.ofNat (4096 * a + 256 * b + 16 * c2 + d) :: p.1, p.2))
            | _, _, _, _ => none
          | _ => none
        else none
    else (parseLitAux rest).map (fun p => (c :: p.1, p.2))

theorem unhex_hexDigitChar : ∀ n, n < 16 → unhex (hexDigitChar n) = some n := by decide

theorem digitVal_hexDigitChar : ∀ n, n < 10 → digitVal (hexDigitChar n) = some n := by decide

theorem parseLitAux_quote (rest : Str) : parseLitAux ('"' :: rest) = some ([], rest) := by
  rw [parseLitAux.eq_def]; rfl

theorem parseLitAux_esc_quote (rest : Str) :
    parseLitAux ('\\' :: '"' :: rest) = (parseLitAux rest).map (fun p => ('"' :: p.1, p.2)) := by
  rw [parseLitAux.eq_def]; rfl

theorem parseLitAux_esc_back (rest : Str) :
    parseLitAux ('\\' :: '\\' :: rest) = (parseLitAux rest).map (fun p => ('\\' :: p.1, p.2)) := by
  rw [parseLitAux.eq_def]; rfl

theorem parseLitAux_esc_b (rest : Str) :
    parseLitAux ('\\' :: 'b' :: rest) =
      (parseLitAux rest).map (fun p => (Char.ofNat 8 :: p.1, p.2)) := by
  rw [parseLitAux.eq_def]; rfl

theorem parseLitAux_esc_t (rest : Str) :
    parseLitAux ('\\' :: 't' :: rest) =
      (parseLitAux rest).map (fun p => (Char.ofNat 9 :: p.1, p.2)) := by
  rw [parseLitAux.eq_def]; rfl

theorem parseLitAux_esc_n (rest : Str) :
    parseLitAux ('\\' :: 'n' :: rest) =
      (parseLitAux rest).map (fun p => (Char.ofNat 10 :: p.1, p.2)) := by
  rw [parseLitAux.eq_def]; rfl

theorem parseLitAux_esc_f (rest : Str) :
    parseLitAux ('\\' :: 'f' :: rest) =
      (parseLitAux rest).map (fun p => (Char.ofNat 12 :: p.1, p.2)) := by
  rw [parseLitAux.eq_def]; rfl

theorem parseLitAux_esc_r (rest : Str) :
    parseLitAux ('\\' :: 'r' :: rest) =
      (parseLitAux rest).map (fun p => (Char.ofNat 13 :: p.1, p.2)) := by
  rw [parseLitAux.eq_def]; rfl

theorem parseLitAux_esc_u (hi lo : Char) (rest : Str) (a b : Nat)
    (ha : unhex hi = some a) (hb : unhex lo = some b) :
    parseLitAux ('\\' :: 'u' :: '0' :: '0' :: hi :: lo :: rest) =
      (parseLitAux rest).map (fun p => (Char.ofNat (16 * a + b) :: p.1, p.2)) := by
  have h0 : unhex '0' = some 0 := by decide
  rw [parseLitAux.eq_def]
  simp [ha, hb, h0]

theorem parseLitAux_plain (c : Char) (rest : Str) (h1 : c ≠ '"') (h2 : c ≠ '\\') :
    parseLitAux (c :: rest) = (parseLitAux rest).map (fun p => (c :: p.1, p.2)) := by
  rw [parseLitAux.eq_def]
  simp only []
  rw [if_neg h1, if_neg h2]

/-- `parseLitAux` inverts `escapeStr` followed by a closing quote. -/
theorem parseLitAux_escape (s rest : Str) :
    parseLitAux (escapeStr s ++ '"' :: rest) = some (s, rest) := by
  induction s with
  | nil => simpa [escapeStr] using parseLitAux_quote rest
  | cons c s ih =>
    show parseLitAux ((escapeChar c ++ escapeStr s) ++ '"' :: rest) = _
    rw [List.append_assoc]
    by_cases h1 : c = '"'
    · subst h1; simp [escapeChar, parseLitAux_esc_quote, ih]
    by_cases h2 : c = '\\'
    · subst h2; simp [escapeChar, h1, parseLitAux_esc_back, ih]
    by_cases h3 : c = Char.ofNat 8
    · subst h3; simp [escapeChar, h1, h2, parseLitAux_esc_b, ih]
    by_cases h4 : c = Char.ofNat 9
    · subst h4; simp [escapeChar, h1, h2, h3, parseLitAux_esc_t, ih]
    by_cases h5 : c = Char.ofNat 10
    · subst h5; simp [escapeChar, h1, h2, h3, h4, parseLitAux_esc_n, ih]
    by_cases h6 : c = Char.ofNat 12
    · subst h6; simp [escapeChar, h1, h2, h3, h4, h5, parseLitAux_esc_f, ih]
    by_cases h7 : c = Char.ofNat 13
    · subst h7; simp [escapeChar, h1, h2, h3, h4, h5, h6, parseLitAux_esc_r, ih]
    by_cases h8 : c.toNat < 32
    · have hhi : unhex (hexDigitChar (c.toNat / 16)) = some (c.toNat / 16) :=
        unhex_hexDigitChar _ (by omega)
      have hlo : unhex (hexDigitChar (c.toNat % 16)) = some (c.toNat % 16) :=
        unhex_hexDigitChar _ (by omega)
      have hc : Char.ofNat (16 * (c.toNat / 16) + c.toNat % 16) = c := by
        have h16 : 16 * (c.toNat / 16) + c.toNat % 16 = c.toNat := by omega
        rw [h16, Char.ofNat_toNat]
      have hstep := parseLitAux_esc_u (hexDigitChar (c.toNat / 16)) (hexDigitChar (c.toNat % 16))
        (escapeStr s ++ '"' :: rest) _ _ hhi hlo
      simp [escapeChar, h1, h2, h3, h4, h5, h6, h7, h8, hstep, ih, hc]
    · simp [escapeChar, h1, h2, h3, h4, h5, h6, h7, h8, parseLitAux_plain c _ h1 h2, ih]

/-- Fuel-indexed digit printer; the fuel only bounds the recursion depth. -/
def natCharsAux : Nat → Nat → Str
  | 0, _ => []
  | fuel + 1, n =>
    if n < 10 then [hexDigitChar n] else natCharsAux fuel (n / 10) ++ [hexDigitChar (n % 10)]

/-- Decimal digit string of a natural number, as `JSON.stringify` prints
`issuedAt`. -/
def natChars (n : Nat) : Str := natCharsAux (n + 1) n

/-- Greedily consume decimal digits, accumulating their value. -/
def parseNatAux (acc : Nat) : Str → Nat × Str
  | [] => (acc, [])
  | c :: rest =>
    match digitVal c with
    | some d => parseNatAux (acc * 10 + d) rest
    | none => (acc, c :: rest)

/-- Whether the input starts with a decimal digit. -/
def headDigit : Str → Bool
  | [] => false
  | c :: _ => (digitVal c).isSome

/-- Parse a (non-empty) decimal number off the front of the input. -/
def parseNatChars (s : Str) : Option (Nat × Str) :=
  if headDigit s then some (parseNatAux 0 s) else none

theorem parseNatAux_natCharsAux :
    ∀ fuel n acc rest, n < fuel →
      parseNatAux acc (natCharsAux fuel n ++ rest) =
        parseNatAux (acc * 10 ^ (natCharsAux fuel n).length + n) rest := by
  intro fuel
  induction fuel with
  | zero => intro n acc rest h; omega
  | succ fuel ih =>
    intro n acc rest _
    by_cases h : n < 10
    · simp only [natCharsAux, h, if_pos, List.singleton_append, List.length_singleton,
        pow_one, parseNatAux, digitVal_hexDigitChar n h]
    · have hfuel : n / 10 < fuel := by
        have := Nat.div_lt_self (show 0 < n by omega) (show 1 < 10 by omega)
        omega
      simp only [natCharsAux, h, if_neg, not_false_iff, List.append_assoc,
        List.cons_append, List.nil_append]
      rw [ih (n / 10) acc _ hfuel]
      have hm : n % 10 < 10 := Nat.mod_lt _ (by omega)
      simp only [parseNatAux, digitVal_hexDigitChar _ hm]
      have harith : (acc * 10 ^ (natCharsAux fuel (n / 10)).length + n / 10) * 10 + n % 10 =
          acc * 10 ^ (natCharsAux fuel (n / 10) ++ [hexDigitChar (n % 10)]).length + n := by
        have hdm : n / 10 * 10 + n % 10 = n := by omega
        simp only [List.length_append, List.length_singleton, pow_succ]
        set X := 10 ^ (natCharsAux fuel (n / 10)).length with hX
        set Y := acc * X with hY
        have : (Y + n / 10) * 10 + n % 10 = Y * 10 + n := by omega
        rw [this, Nat.mul_assoc]
      rw [harith]

theorem parseNatAux_natChars (n acc : Nat) (rest : Str) :
    parseNatAux acc (natChars n ++ rest) =
      parseNatAux (acc * 10 ^ (natChars n).length + n) rest :=
  parseNatAux_natCharsAux (n + 1) n acc rest (by omega)

theorem headDigit_natCharsAux :
    ∀ fuel n rest, n < fuel → headDigit (natCharsAux fuel n ++ rest) = true := by
  intro fuel
  induction fuel with
  | zero => intro n rest h; omega
  | succ fuel ih =>
    intro n rest _
    by_cases h : n < 10
    · simp only [natCharsAux, h, if_pos, List.singleton_append, headDigit,
        digitVal_hexDigitChar n h, Option.isSome_some]
    · have hfuel : n / 10 < fuel := by
        have := Nat.div_lt_self (show 0 < n by omega) (show 1 < 10 by omega)
        omega
      simp only [natCharsAux, h, if_neg, not_false_iff, List.append_assoc,
        List.cons_append]
      exact ih (n / 10) _ hfuel

theorem headDigit_natChars (n : Nat) (rest : Str) : headDigit (natChars n ++ rest) = true :=
  headDigit_natCharsAux (n + 1) n rest (by omega)

theorem parseNatAux_stop (acc : Nat) (c : Char) (rest : Str) (h : digitVal c = none) :
    parseNatAux acc (c :: rest) = (acc, c :: rest) := by
  simp [parseNatAux, h]

/-- `parseNatChars` inverts `natChars` when the remaining input does not
start with a digit. -/
theorem parseNatChars_natChars (n : Nat) (c : Char) (rest : Str) (h : digitVal c = none) :
    parseNatChars (natChars n ++ c :: rest) = some (n, c :: rest) := by
  rw [parseNatChars, if_pos (headDigit_natChars n _), parseNatAux_natChars,
    parseNatAux_stop _ _ _ h]
  simp

/-- Consume an exact expected chunk off the front of the input. -/
def dropExact : Str → Str → Option Str
  | [], s => some s
  | _ :: _, [] => none
  | e :: es, c :: cs => if c = e then dropExact es cs else none

theorem dropExact_same : ∀ pre s : Str, dropExact pre (pre ++ s) = some s := by
  intro pre
  induction pre with
  | nil => intro s; rfl
  | cons e es ih => intro s; simp [dropExact, ih]

/-- The identity snapshot sealed in the envelope: the fields of the object
passed as `userToEncrypt` in `getLoginChallenge` (`src/server.ts`). -/
structure UserSnap where
  id : Str
  email : Str
  name : Str
deriving DecidableEq, Repr

/-- The plaintext payload of the login-state envelope:
`{ serverLoginState, user, issuedAt: Date.now() }` (`src/utils.ts`,
`encryptServerLoginState`). `issuedAt` is a millisecond timestamp. -/
structure LoginStatePayload where
  serverLoginState : Str
  user : Option UserSnap
  issuedAt : Nat
deriving DecidableEq, Repr

def chunkHead : Str :=
  [lbrace, '"', 's', 'e', 'r', 'v', 'e', 'r', 'L', 'o', 'g', 'i', 'n', 'S', 't', 'a',
    't', 'e', '"', ':', '"']

def chunkUserKey : Str := [',', '"', 'u', 's', 'e', 'r', '"', ':']

def chunkIssuedKey : Str := [',', '"', 'i', 's', 's', 'u', 'e', 'd', 'A', 't', '"', ':']

def chunkNull : Str := ['n', 'u', 'l', 'l']

def chunkUserId : Str := [lbrace, '"', 'i', 'd', '"', ':', '"']

def chunkUserEmail : Str := [',', '"', 'e', 'm', 'a', 'i', 'l', '"', ':', '"']

def chunkUserName : Str := [',', '"', 'n', 'a', 'm', 'e', '"', ':', '"']

/-- `JSON.stringify` of the user snapshot (or of `null`), grouped so that the
literal JSON text lines up with the parser's consumption order. -/
def serializeUser : Option UserSnap → Str
  | none => chunkNull
  | some u =>
    chunkUserId ++ (escapeStr u.id ++ ('"' :: chunkUserEmail ++ (escapeStr u.email ++
      ('"' :: chunkUserName ++ (escapeStr u.name ++ ('"' :: [rbrace]))))))

/-- `JSON.stringify({ serverLoginState, user, issuedAt })`, the exact JSON
text with keys in insertion order. -/
def serializePayload (p : LoginStatePayload) : Str :=
  chunkHead ++ (escapeStr p.serverLoginState ++ ('"' :: chunkUserKey ++
    (serializeUser p.user ++ (chunkIssuedKey ++ (natChars p.issuedAt ++ [rbrace])))))

/-- Parse the JSON value at the `user` key: `null` or the snapshot object. -/
def parseUserVal (s : Str) : Option (Option UserSnap × Str) :=
  match dropExact chunkNull s with
  | some rest => some (none, rest)
  | none =>
    match dropExact chunkUserId s with
    | none => none
    | some s1 =>
      match parseLitAux s1 with
      | none => none
      | some (uid, s2) =>
        match dropExact chunkUserEmail s2 with
        | none => none
        | some s3 =>
          match parseLitAux s3 with
          | none => none
          | some (uemail, s4) =>
            match dropExact chunkUserName s4 with
            | none => none
            | some s5 =>
              match parseLitAux s5 with
              | none => none
              | some (uname, s6) =>
                match dropExact [rbrace] s6 with
                | none => none
                | some s7 => some (some ⟨uid, uemail, uname⟩, s7)

/-- Parse the serialized payload shape, returning the payload and the
remaining input. -/
def parsePayloadCore (s : Str) : Option (LoginStatePayload × Str) :=
  match dropExact chunkHead s with
  | none => none
  | some s1 =>
    match parseLitAux s1 with
    | none => none
    | some (sls, s2) =>
      match dropExact chunkUserKey s2 with
      | none => none
      | some s3 =>
        match parseUserVal s3 with
        | none => none
        | some (user, s4) =>
          match dropExact chunkIssuedKey s4 with
          | none => none
          | some s5 =>
            match parseNatChars s5 with
            | none => none
            | some (n, s6) =>
              match dropExact [rbrace] s6 with
              | none => none
              | some s7 => some (⟨sls, user, n⟩, s7)

/-- Whether the input is only space characters (the padding). -/
def isSpaces : Str → Bool
  | [] => true
  | c :: rest => c = ' ' && isSpaces rest

/-- Model of `JSON.parse` applied to a decrypted envelope: parses exactly the
payload shape that `serializePayload` produces, tolerating the trailing
space padding as `JSON.parse` tolerates trailing whitespace; any other input
fails (a `SyntaxError` in the source). -/
def parsePayload (s : Str) : Option LoginStatePayload :=
  match parsePayloadCore s with
  | none => none
  | some (p, rest) => if isSpaces rest then some p else none

theorem isSpaces_replicate (k : Nat) : isSpaces (List.replicate k ' ') = true := by
  induction k with
  | zero => rfl
  | succ k ih => simp [List.replicate, isSpaces, ih]

theorem parseUserVal_serialize (u : Option UserSnap) (rest : Str) :
    parseUserVal (serializeUser u ++ rest) = some (u, rest) := by
  cases u with
  | none => simp [serializeUser, parseUserVal, dropExact_same]
  | some u =>
    have hnull : dropExact chunkNull (serializeUser (some u) ++ rest) = none := by
      simp only [serializeUser, chunkNull, chunkUserId, List.cons_append, dropExact]
      rw [if_neg (by decide)]
    have hrb : ∀ r : Str, dropExact [rbrace] (rbrace :: r) = some r := by
      intro r; simpa using dropExact_same [rbrace] r
    rw [parseUserVal, hnull]
    simp only [serializeUser, List.append_assoc, List.cons_append, List.nil_append,
      dropExact_same, parseLitAux_escape, hrb]

/-- The parser inverts serialization followed by any amount of space
padding. -/
theorem parsePayload_serialize (p : LoginStatePayload) (k : Nat) :
    parsePayload (serializePayload p ++ List.replicate k ' ') = some p := by
  have hpn : ∀ (m : Nat) (r : Str), parseNatChars (natChars m ++ rbrace :: r) =
      some (m, rbrace :: r) := fun m r => parseNatChars_natChars m rbrace r (by decide)
  have hrb : ∀ r : Str, dropExact [rbrace] (rbrace :: r) = some r := by
    intro r; simpa using dropExact_same [rbrace] r
  rw [parsePayload, parsePayloadCore]
  simp only [serializePayload, List.append_assoc, List.cons_append, List.nil_append,
    dropExact_same, parseLitAux_escape, parseUserVal_serialize, hpn, hrb]
  simp [isSpaces_replicate]

/-! ## Error taxonomy

`APIError` statuses and the non-`APIError` exceptions the source can raise.
-/

inductive APIStatus
  | BAD_REQUEST
  | UNAUTHORIZED
  | CONFLICT
  | INTERNAL_SERVER_ERROR
deriving DecidableEq, Repr

/-- The externally distinguishable failure outcomes of the endpoints:
`APIError`s (status and message), the `Error` thrown by `padToLength`, the
exception raised by `atob` on undecodable input, the exception raised by
`symmetricDecrypt` on undecryptable input, and the `SyntaxError` raised by
`JSON.parse`. -/
inductive OpaqueFailure
  | api (status : APIStatus) (message : Str)
  | payloadTooLarge
  | decodeFailed
  | decryptFailed
  | jsonParseFailed
deriving DecidableEq, Repr

/-! ## Message validator (`src/utils.ts`) -/

/-- Base64 value of one character of the standard alphabet. -/
def b64Val (c : Char) : Option Nat :=
  if 65 ≤ c.toNat ∧ c.toNat ≤ 90 then some (c.toNat - 65)
  else if 97 ≤ c.toNat ∧ c.toNat ≤ 122 then some (c.toNat - 97 + 26)
  else if 48 ≤ c.toNat ∧ c.toNat ≤ 57 then some (c.toNat - 48 + 52)
  else if c = '+' then some 62
  else if c = '/' then some 63
  else none

/-- `atob` on an input whose length is a multiple of 4 (the source always
pads to that): decode groups of four characters to three bytes, with `=`
padding allowed only in the final group; fail on any other character. -/
def atobGroups : Str → Option (List Nat)
  | [] => some []
  | a :: b :: c :: d :: rest =>
    match b64Val a, b64Val b with
    | some va, some vb =>
      if c = '=' then
        if d = '=' ∧ rest = [] then some [va * 4 + vb / 16] else none
      else
        match b64Val c with
        | some vc =>
          if d = '=' then
            if rest = [] then some [va * 4 + vb / 16, vb % 16 * 16 + vc / 4] else none
          else
            match b64Val d with
            | some vd =>
              (atobGroups rest).map
                (fun tail => (va * 4 + vb / 16) :: (vb % 16 * 16 + vc / 4) ::
                  (vc % 4 * 64 + vd) :: tail)
            | none => none
        | none => none
    | _, _ => none
  | _ => none

/-- `base64UrlDecode` (`src/utils.ts`): pad with `=` to a multiple of 4,
translate the url-safe alphabet to the standard one, then `atob`; `none`
models the exception `atob` raises on undecodable input. -/
def base64UrlDecode (str : Str) : Option (List Nat) :=
  let padded := str ++ List.replicate ((4 - str.length % 4) % 4) '='
  let replaced := padded.map (fun c => if c = '-' then '+' else if c = '_' then '/' else c)
  atobGroups replaced

/-- `validateBase64Length` (`src/utils.ts`): decode, then require an exact
byte length; the `APIError` message is `Invalid ` followed by the field
name. A decode failure propagates the decode exception itself. -/
def validateBase64Length (base64 : Str) (expectedLength : Nat) (fieldName : Str) :
    Except OpaqueFailure Unit :=
  match base64UrlDecode base64 with
  | none => .error .decodeFailed
  | some bytes =>
    if bytes.length ≠ expectedLength then
      .error (.api .BAD_REQUEST (('I' :: 'n' :: 'v' :: 'a' :: 'l' :: 'i' :: 'd' :: ' ' :: []) ++ fieldName))
    else .ok ()

/-- `validateBase64LengthRange` (`src/utils.ts`): decode, then require the
byte length to lie in `[min, max]`. -/
def validateBase64LengthRange (base64 : Str) (min max : Nat) (fieldName : Str) :
    Except OpaqueFailure Unit :=
  match base64UrlDecode base64 with
  | none => .error .decodeFailed
  | some bytes =>
    if bytes.length < min ∨ bytes.length > max then
      .error (.api .BAD_REQUEST (('I' :: 'n' :: 'v' :: 'a' :: 'l' :: 'i' :: 'd' :: ' ' :: []) ++ fieldName))
    else .ok ()

/-- `REGISTRATION_REQUEST_LENGTH` (`src/utils.ts`). -/
def REGISTRATION_REQUEST_LENGTH : Nat := 32

/-- `REGISTRATION_RECORD_MIN_LENGTH` (`src/utils.ts`). -/
def REGISTRATION_RECORD_MIN_LENGTH : Nat := 170

/-- `REGISTRATION_RECORD_MAX_LENGTH` (`src/utils.ts`). -/
def REGISTRATION_RECORD_MAX_LENGTH : Nat := 200

/-- `LOGIN_REQUEST_LENGTH` (`src/utils.ts`). -/
def LOGIN_REQUEST_LENGTH : Nat := 96

/-! ## Login-state envelope (`src/utils.ts`) -/

/-- `padToLength` (`src/utils.ts`): throw if the UTF-8 byte length already
exceeds the target, otherwise append spaces up to the target. -/
def padToLength (input : Str) (targetLength : Nat) : Except OpaqueFailure Str :=
  if byteLength input > targetLength then .error .payloadTooLarge
  else .ok (input ++ List.replicate (targetLength - byteLength input) ' ')

/-- The external symmetric cipher collaborator (`symmetricEncrypt` /
`symmetricDecrypt` from `better-auth/crypto`); only its contract is used. -/
structure Cipher where
  enc : Str → Str → Str
  dec : Str → Str → Option Str

/-- The cipher contract: decryption under the same key inverts
encryption. -/
def Cipher.RoundTrips (C : Cipher) : Prop := ∀ k d, C.dec k (C.enc k d) = some d

/-- `encryptServerLoginState` (`src/utils.ts`): serialize
`{ serverLoginState, user, issuedAt: now }`, pad to 1024 bytes, encrypt. -/
def encryptServerLoginState (C : Cipher) (serverLoginState : Str) (secret : Str)
    (user : Option UserSnap) (now : Nat) : Except OpaqueFailure Str :=
  match padToLength (serializePayload ⟨serverLoginState, user, now⟩) 1024 with
  | .error e => .error e
  | .ok padded => .ok (C.enc secret padded)

/-- `decryptServerLoginState` (`src/utils.ts`): decrypt, `JSON.parse`, then
reject with `Login state has expired` when `issuedAt + 15min < now`.
Decryption and parse failures propagate as their own (non-`APIError`)
exceptions. -/
def decryptServerLoginState (C : Cipher) (encryptedState secret : Str) (now : Nat) :
    Except OpaqueFailure LoginStatePayload :=
  match C.dec secret encryptedState with
  | none => .error .decryptFailed
  | some decrypted =>
    match parsePayload decrypted with
    | none => .error .jsonParseFailed
    | some data =>
      if data.issuedAt + 15 * 60 * 1000 < now then
        .error (.api .BAD_REQUEST ("Login state has expired".data))
      else .ok data

/-! ## Store and collaborator models

The account/session store (`ctx.context.internalAdapter`) and the OPAQUE
engine (`@serenity-kit/opaque`'s `server`) are external collaborators; they
are modelled from their contracts (spec's external-interface section):
`findUserByEmail` looks a user up by email, `createUser`/`createAccount`
append entities, `createSession` returns a session with a fresh token, the
engine's functions are deterministic opaque transforms.
-/

/-- A persisted account row; `registrationRecord` is an optional field of
the `opaque` provider's account schema (`src/server.ts`). -/
structure DBAccount where
  accountId : Str
  providerId : Str
  userId : Str
  registrationRecord : Option Str
deriving DecidableEq, Repr

/-- A session row: (userId, token). -/
structure Session where
  token : Str
deriving DecidableEq, Repr

/-- The external store's state: user rows (modelled with the snapshot
fields the orchestrator reads), account rows, session rows, and a counter
generating fresh identifiers and tokens. -/
structure DB where
  users : List UserSnap
  accounts : List DBAccount
  sessions : List (Str × Str)
  nextId : Nat
deriving DecidableEq, Repr

/-- `internalAdapter.findUserByEmail`. -/
def findUserByEmailDB (db : DB) (email : Str) : Option UserSnap :=
  db.users.find? (fun u => u.email == email)

/-- `findOpaqueAccount` (`src/utils.ts`): `findAccounts(userId)` then pick
the account whose `providerId` is `opaque`. -/
def findOpaqueAccountDB (db : DB) (userId : Str) : Option DBAccount :=
  (db.accounts.filter (fun a => a.userId == userId)).find?
    (fun a => a.providerId == ("opaque".data))

/-- `internalAdapter.createSession`: deterministic model of the external
session collaborator; always yields a session with a fresh token. -/
def createSessionDB (db : DB) (userId : Str) (_dontRememberMe : Bool) :
    Option (Session × DB) :=
  let token : Str := 't' :: natChars db.nextId
  some (⟨token⟩,
    { db with sessions := db.sessions ++ [(userId, token)], nextId := db.nextId + 1 })

/-- The OPAQUE engine (`@serenity-kit/opaque`): `startLogin(userIdentifier,
startLoginRequest, serverSetup, registrationRecord)` yields
`(loginResponse, serverLoginState)`; `finishLogin(finishLoginRequest,
serverLoginState)` yields a session key, `none` modelling a falsy
`sessionKey`. -/
structure Engine where
  startLogin : Str → Str → Str → Str → Str × Str
  finishLogin : Str → Str → Option Str

/-- The success body the endpoints return:
`{ success: true, token, user: { id } }` (plus a constant message). -/
structure EndpointSuccess where
  token : Str
  userId : Str
deriving DecidableEq, Repr

/-! ## Registration orchestrator (`src/server.ts`, `completeRegistration`) -/

/-- The `/sign-up/opaque/complete` handler: validate the record's length
range, look the email up, throw `CONFLICT` when a user exists, otherwise
create user, account and session. -/
def completeRegistration (db : DB) (email userName registrationRecord : Str) :
    Except OpaqueFailure EndpointSuccess × DB :=
  match validateBase64LengthRange registrationRecord REGISTRATION_RECORD_MIN_LENGTH
      REGISTRATION_RECORD_MAX_LENGTH ("registration record".data) with
  | .error e => (.error e, db)
  | .ok _ =>
    match findUserByEmailDB db email with
    | some _ => (.error (.api .CONFLICT ("User with this email already exists".data)), db)
    | none =>
      let user : UserSnap := ⟨'u' :: natChars db.nextId, email, userName⟩
      let db1 : DB := { db with users := db.users ++ [user], nextId := db.nextId + 1 }
      let accountId : Str := 'a' :: natChars db1.nextId
      let db2 : DB := { db1 with
        accounts := db1.accounts ++
          [⟨accountId, "opaque".data, user.id, some registrationRecord⟩],
        nextId := db1.nextId + 1 }
      match createSessionDB db2 user.id false with
      | none => (.error (.api .INTERNAL_SERVER_ERROR ("Failed to create session".data)), db2)
      | some (session, db3) => (.ok ⟨session.token, user.id⟩, db3)

/-! ## Login orchestrator (`src/server.ts`) -/

/-- The per-request random values consumed by the login-challenge handler:
the `createDummyRegistrationRecord()` output and the two
`generateRandomString` outputs used for the synthesized snapshot. -/
structure ChallengeEffects where
  dummyRecord : Str
  randId : Str
  randName : Str

/-- The `/sign-in/opaque/challenge` response `{ challenge, state }`. -/
structure LoginChallengeOut where
  challenge : Str
  state : Str
deriving DecidableEq, Repr

/-- The `/sign-in/opaque/challenge` handler: validate the login request,
look the user up; when absent use the decoy record and a synthesized random
snapshot, when present use the real snapshot and the stored record (falling
back to the decoy when the opaque account or its record is missing or
empty); run `startLogin` and seal the envelope. -/
def getLoginChallenge (C : Cipher) (E : Engine) (eff : ChallengeEffects)
    (serverKey secret : Str) (db : DB) (now : Nat) (email loginRequest : Str) :
    Except OpaqueFailure LoginChallengeOut :=
  match validateBase64Length loginRequest LOGIN_REQUEST_LENGTH ("login request".data) with
  | .error e => .error e
  | .ok _ =>
    let choice : Str × Option UserSnap :=
      match findUserByEmailDB db email with
      | none => (eff.dummyRecord, some ⟨eff.randId, email, eff.randName⟩)
      | some user =>
        let registrationRecord : Str :=
          match findOpaqueAccountDB db user.id with
          | some acc =>
            match acc.registrationRecord with
            | some r => if r = [] then eff.dummyRecord else r
            | none => eff.dummyRecord
          | none => eff.dummyRecord
        (registrationRecord, some user)
    let sl := E.startLogin email loginRequest serverKey choice.1
    match encryptServerLoginState C sl.2 secret choice.2 now with
    | .error e => .error e
    | .ok enc => .ok ⟨sl.1, enc⟩

/-- The `/sign-in/opaque/complete` request body. The handler destructures
only `loginResult`, `encryptedServerState` and `dontRememberMe`; `email` is
accepted by the schema but never read. -/
structure CompleteLoginBody where
  email : Str
  loginResult : Str
  encryptedServerState : Str
  dontRememberMe : Option Bool
deriving DecidableEq, Repr

/-- The `/sign-in/opaque/complete` handler: open the envelope, run
`finishLogin`, fail with the generic `UNAUTHORIZED`/`Login failed` error
when no session key is derived or the recovered snapshot is `null`,
otherwise create a session for the recovered identity. -/
def completeLogin (C : Cipher) (E : Engine) (db : DB) (secret : Str) (now : Nat)
    (body : CompleteLoginBody) : Except OpaqueFailure EndpointSuccess × DB :=
  match decryptServerLoginState C body.encryptedServerState secret now with
  | .error e => (.error e, db)
  | .ok data =>
    match E.finishLogin body.loginResult data.serverLoginState with
    | none => (.error (.api .UNAUTHORIZED ("Login failed".data)), db)
    | some _sessionKey =>
      match data.user with
      | none => (.error (.api .UNAUTHORIZED ("Login failed".data)), db)
      | some user =>
        match createSessionDB db user.id (body.dontRememberMe.getD false) with
        | none =>
          (.error (.api .INTERNAL_SERVER_ERROR ("Failed to create session".data)), db)
        | some (session, db2) => (.ok ⟨session.token, user.id⟩, db2)

/-! ## Decidability helpers and concrete fixtures -/

instance {ε α : Type} [DecidableEq ε] [DecidableEq α] : DecidableEq (Except ε α) := fun a b =>
  match a, b with
  | .error e, .error f =>
    if h : e = f then isTrue (by rw [h]) else isFalse (fun hh => by cases hh; exact h rfl)
  | .error _, .ok _ => isFalse (fun hh => by cases hh)
  | .ok _, .error _ => isFalse (fun hh => by cases hh)
  | .ok x, .ok y =>
    if h : x = y then isTrue (by rw [h]) else isFalse (fun hh => by cases hh; exact h rfl)

/-- A trivial concrete cipher satisfying the round-trip contract; used to
instantiate the theorems at concrete inputs. -/
def idCipher : Cipher := ⟨fun _ d => d, fun _ d => some d⟩

theorem idCipher_roundTrips : idCipher.RoundTrips := fun _ _ => rfl

def payloadNull : LoginStatePayload := ⟨['s'], none, 0⟩

def sealedNull : Str :=
  serializePayload payloadNull ++
    List.replicate (1024 - byteLength (serializePayload payloadNull)) ' '

def payloadUser : LoginStatePayload := ⟨['s'], some ⟨['i'], ['e'], ['n']⟩, 0⟩

def sealedUser : Str :=
  serializePayload payloadUser ++
    List.replicate (1024 - byteLength (serializePayload payloadUser)) ' '

def db0 : DB := ⟨[], [], [], 0⟩

/-- A concrete engine whose `finishLogin` derives no session key. -/
def engNone : Engine := ⟨fun _ _ _ _ => ([], []), fun _ _ => none⟩

/-- A concrete engine whose `finishLogin` always derives a session key. -/
def engSome : Engine := ⟨fun _ _ _ _ => ([], []), fun _ _ => some ['k']⟩

/-! ## Claim theorems -/

/-- C1: in `completeLogin`, once the envelope has been opened, both failure
causes — `finishLogin` reporting no session key, and the recovered user
snapshot being `null` — produce the very same `UNAUTHORIZED` /
`Login failed` error (identical status and message), leaving the store
untouched. -/
theorem c1_login_failure_symmetry (C : Cipher) (E : Engine) (db : DB) (secret : Str)
    (now : Nat) (body : CompleteLoginBody) (data : LoginStatePayload)
    (hdec : decryptServerLoginState C body.encryptedServerState secret now = .ok data)
    (hfail : E.finishLogin body.loginResult data.serverLoginState = none ∨ data.user = none) :
    completeLogin C E db secret now body =
      (.error (.api .UNAUTHORIZED ("Login failed".data)), db) := by
  rcases hfail with h | h
  · simp only [completeLogin, hdec, h]
  · simp only [completeLogin, hdec, h]
    cases E.finishLogin body.loginResult data.serverLoginState <;> rfl

theorem c1_login_failure_symmetry_witness :
    decryptServerLoginState idCipher sealedNull ['k'] 5 = .ok payloadNull ∧
    completeLogin idCipher engNone db0 ['k'] 5 ⟨['e'], ['r'], sealedNull, none⟩ =
      (.error (.api .UNAUTHORIZED ("Login failed".data)), db0) :=
  ⟨by decide,
    c1_login_failure_symmetry idCipher engNone db0 ['k'] 5 ⟨['e'], ['r'], sealedNull, none⟩
      payloadNull (by decide) (Or.inl rfl)⟩

/-- C10: `completeLogin` never reads the `email` field of its body: two
requests that differ only in the email value produce identical outcomes. -/
theorem c10_email_independence (C : Cipher) (E : Engine) (db : DB) (secret : Str)
    (now : Nat) (email1 email2 loginResult encryptedServerState : Str)
    (dontRememberMe : Option Bool) :
    completeLogin C E db secret now ⟨email1, loginResult, encryptedServerState, dontRememberMe⟩ =
      completeLogin C E db secret now
        ⟨email2, loginResult, encryptedServerState, dontRememberMe⟩ := rfl

/-- C5: envelope round-trip — for any state string and any (null or
populated) snapshot whose serialization fits the 1024-byte pad target,
sealing succeeds and opening within the expiry window under the same secret
returns the same state and snapshot unchanged. -/
theorem c5_envelope_roundtrip (C : Cipher) (hC : C.RoundTrips) (sls secret : Str)
    (user : Option UserSnap) (sealedAt now : Nat)
    (hsize : byteLength (serializePayload ⟨sls, user, sealedAt⟩) ≤ 1024)
    (hfresh : ¬ sealedAt + 15 * 60 * 1000 < now) :
    ∃ env, encryptServerLoginState C sls secret user sealedAt = .ok env ∧
      decryptServerLoginState C env secret now = .ok ⟨sls, user, sealedAt⟩ := by
  refine ⟨C.enc secret (serializePayload ⟨sls, user, sealedAt⟩ ++
    List.replicate (1024 - byteLength (serializePayload ⟨sls, user, sealedAt⟩)) ' '), ?_, ?_⟩
  · rw [encryptServerLoginState, padToLength, if_neg (by omega)]
  · rw [decryptServerLoginState, hC]
    simp only [parsePayload_serialize]
    rw [if_neg hfresh]

theorem c5_envelope_roundtrip_witness :
    (byteLength (serializePayload ⟨['s'], some ⟨['i'], ['e'], ['n']⟩, 7⟩) ≤ 1024) ∧
    ∃ env, encryptServerLoginState idCipher ['s'] ['k'] (some ⟨['i'], ['e'], ['n']⟩) 7 =
        .ok env ∧
      decryptServerLoginState idCipher env ['k'] 7 = .ok ⟨['s'], some ⟨['i'], ['e'], ['n']⟩, 7⟩ :=
  ⟨by decide,
    c5_envelope_roundtrip idCipher idCipher_roundTrips ['s'] ['k']
      (some ⟨['i'], ['e'], ['n']⟩) 7 7 (by decide) (by decide)⟩

/-- C6: opening a sealed envelope fails with the `Login state has expired`
error exactly when it was sealed strictly more than 15 minutes
(900000 ms) before opening, and an envelope sealed 14 minutes 59 seconds
(899000 ms) ago opens successfully. -/
theorem c6_envelope_expiry (C : Cipher) (hC : C.RoundTrips) (sls secret : Str)
    (user : Option UserSnap) (sealedAt now : Nat) (env : Str)
    (henv : encryptServerLoginState C sls secret user sealedAt = .ok env) :
    (decryptServerLoginState C env secret now =
        .error (.api .BAD_REQUEST ("Login state has expired".data)) ↔
      sealedAt + 15 * 60 * 1000 < now) ∧
    (now = sealedAt + 899 * 1000 →
      decryptServerLoginState C env secret now = .ok ⟨sls, user, sealedAt⟩) := by
  rw [encryptServerLoginState, padToLength] at henv
  by_cases hb : byteLength (serializePayload ⟨sls, user, sealedAt⟩) > 1024
  · rw [if_pos hb] at henv; cases henv
  · rw [if_neg hb] at henv
    simp only [Except.ok.injEq] at henv
    subst henv
    rw [decryptServerLoginState, hC]
    simp only [parsePayload_serialize]
    constructor
    · by_cases hexp : sealedAt + 15 * 60 * 1000 < now
      · simp [hexp]
      · simp [hexp]
    · intro hnow
      subst hnow
      rw [if_neg (by omega)]

theorem c6_envelope_expiry_witness :
    (encryptServerLoginState idCipher ['s'] ['k'] none 0 = .ok sealedNull) ∧
    (decryptServerLoginState idCipher sealedNull ['k'] 900001 =
        .error (.api .BAD_REQUEST ("Login state has expired".data)) ↔
      (0 : Nat) + 15 * 60 * 1000 < 900001) ∧
    (900001 = (0 : Nat) + 899 * 1000 →
      decryptServerLoginState idCipher sealedNull ['k'] 900001 = .ok ⟨['s'], none, 0⟩) :=
  ⟨by decide,
    (c6_envelope_expiry idCipher idCipher_roundTrips ['s'] ['k'] none 0 900001 sealedNull
      (by decide)).1,
    (c6_envelope_expiry idCipher idCipher_roundTrips ['s'] ['k'] none 0 900001 sealedNull
      (by decide)).2⟩

/-- C7: `padToLength` at the fixed 1024-byte target fails with the
payload-too-large error on every input whose UTF-8 byte length exceeds
1024, and never returns a (truncated or other) padded string for such an
input. -/
theorem c7_pad_too_large (input : Str) (h : byteLength input > 1024) :
    padToLength input 1024 = .error .payloadTooLarge ∧
    ∀ out, padToLength input 1024 ≠ .ok out := by
  refine ⟨by rw [padToLength, if_pos h], ?_⟩
  intro out
  rw [padToLength, if_pos h]
  intro hcontra
  cases hcontra

theorem c7_pad_too_large_witness :
    byteLength (List.replicate 1025 'a') > 1024 ∧
    padToLength (List.replicate 1025 'a') 1024 = .error .payloadTooLarge :=
  ⟨by decide, (c7_pad_too_large (List.replicate 1025 'a') (by decide)).1⟩

/-- C2 counterexample: completing registration twice with the same email
does not return the same generic success shape — the second call throws the
distinguishing `CONFLICT` / `User with this email already exists` error. -/
theorem c2_duplicate_registration_counterexample :
    (completeRegistration db0 ['a'] ['n'] (List.replicate 227 'A')).1.isOk = true ∧
    completeRegistration (completeRegistration db0 ['a'] ['n'] (List.replicate 227 'A')).2
        ['a'] ['n'] (List.replicate 227 'A') =
      (.error (.api .CONFLICT ("User with this email already exists".data)),
        (completeRegistration db0 ['a'] ['n'] (List.replicate 227 'A')).2) := by decide

/-- C2 amended: after a successful registration completion for an email,
a second completion with that email (and a valid-length record) throws the
`CONFLICT` / `User with this email already exists` error and leaves the
store unchanged — so at most one account-credential is ever persisted for
the email, but the duplicate is reported by a distinguishing error, not by
the generic success shape. -/
theorem c2_duplicate_registration_amended (db : DB) (email userName1 userName2 rr1 rr2 : Str)
    (h1 : (completeRegistration db email userName1 rr1).1.isOk = true)
    (h2 : validateBase64LengthRange rr2 REGISTRATION_RECORD_MIN_LENGTH
      REGISTRATION_RECORD_MAX_LENGTH ("registration record".data) = .ok ()) :
    completeRegistration (completeRegistration db email userName1 rr1).2 email userName2 rr2 =
      (.error (.api .CONFLICT ("User with this email already exists".data)),
        (completeRegistration db email userName1 rr1).2) := by
  cases hval : validateBase64LengthRange rr1 REGISTRATION_RECORD_MIN_LENGTH
      REGISTRATION_RECORD_MAX_LENGTH ("registration record".data) with
  | error e => simp [completeRegistration, hval, Except.isOk, Except.toBool] at h1
  | ok u =>
    cases hfind : findUserByEmailDB db email with
    | some w => simp [completeRegistration, hval, hfind, Except.isOk, Except.toBool] at h1
    | none =>
      have hfirst : completeRegistration db email userName1 rr1 =
          (.ok ⟨'t' :: natChars (db.nextId + 2), 'u' :: natChars db.nextId⟩,
            { db with
              users := db.users ++ [⟨'u' :: natChars db.nextId, email, userName1⟩],
              accounts := db.accounts ++
                [⟨'a' :: natChars (db.nextId + 1), "opaque".data,
                  'u' :: natChars db.nextId, some rr1⟩],
              sessions := db.sessions ++
                [('u' :: natChars db.nextId, 't' :: natChars (db.nextId + 2))],
              nextId := db.nextId + 3 }) := by
        simp only [completeRegistration, hval, hfind, createSessionDB]
      rw [hfirst]
      have hfind2 : findUserByEmailDB
          { db with
            users := db.users ++ [⟨'u' :: natChars db.nextId, email, userName1⟩],
            accounts := db.accounts ++
              [⟨'a' :: natChars (db.nextId + 1), "opaque".data,
                'u' :: natChars db.nextId, some rr1⟩],
            sessions := db.sessions ++
              [('u' :: natChars db.nextId, 't' :: natChars (db.nextId + 2))],
            nextId := db.nextId + 3 } email =
          some ⟨'u' :: natChars db.nextId, email, userName1⟩ := by
        have hbase : db.users.find? (fun u => u.email == email) = none := hfind
        simp only [findUserByEmailDB, List.find?_append, hbase, Option.none_or,
          List.find?_singleton]
        rw [if_pos (by simp)]
      simp only [completeRegistration, h2, hfind2]

theorem c2_duplicate_registration_amended_witness :
    completeRegistration (completeRegistration db0 ['a'] ['n'] (List.replicate 227 'A')).2
        ['a'] ['m'] (List.replicate 227 'A') =
      (.error (.api .CONFLICT ("User with this email already exists".data)),
        (completeRegistration db0 ['a'] ['n'] (List.replicate 227 'A')).2) :=
  c2_duplicate_registration_amended db0 ['a'] ['n'] ['m'] (List.replicate 227 'A')
    (List.replicate 227 'A') (by decide) (by decide)

/-- C3 counterexample: an expired envelope terminates `completeLogin` with
the `BAD_REQUEST` / `Login state has expired` error, which differs in both
status and message from the wrong-password `UNAUTHORIZED` / `Login failed`
response — so not every envelope-open failure is indistinguishable from a
wrong-password failure. -/
theorem c3_envelope_failure_counterexample :
    completeLogin idCipher engSome db0 ['k'] 900001 ⟨['e'], ['r'], sealedNull, none⟩ =
      (.error (.api .BAD_REQUEST ("Login state has expired".data)), db0) ∧
    (OpaqueFailure.api .BAD_REQUEST ("Login state has expired".data) ≠
      .api .UNAUTHORIZED ("Login failed".data)) := by decide

/-- C3 amended: every failure of opening the envelope terminates
`completeLogin` by propagating the failure unchanged, but the causes remain
distinguishable: a decryption failure and a parse failure propagate as
their own (non-`APIError`) exceptions and expiry yields the `BAD_REQUEST` /
`Login state has expired` error; none of them equals the wrong-password
`UNAUTHORIZED` / `Login failed` response. -/
theorem c3_envelope_failure_amended (C : Cipher) (E : Engine) (db : DB) (secret : Str)
    (now : Nat) (body : CompleteLoginBody) (e : OpaqueFailure)
    (hdec : decryptServerLoginState C body.encryptedServerState secret now = .error e) :
    completeLogin C E db secret now body = (.error e, db) ∧
    (e = .decryptFailed ∨ e = .jsonParseFailed ∨
      e = .api .BAD_REQUEST ("Login state has expired".data)) ∧
    e ≠ .api .UNAUTHORIZED ("Login failed".data) := by
  have hprop : completeLogin C E db secret now body = (.error e, db) := by
    simp only [completeLogin, hdec]
  have hcases : e = .decryptFailed ∨ e = .jsonParseFailed ∨
      e = .api .BAD_REQUEST ("Login state has expired".data) := by
    rw [decryptServerLoginState] at hdec
    cases hd : C.dec secret body.encryptedServerState with
    | none =>
      simp only [hd, Except.error.injEq] at hdec
      exact Or.inl hdec.symm
    | some dec =>
      simp only [hd] at hdec
      cases hp : parsePayload dec with
      | none =>
        simp only [hp, Except.error.injEq] at hdec
        exact Or.inr (Or.inl hdec.symm)
      | some data =>
        simp only [hp] at hdec
        by_cases hexp : data.issuedAt + 15 * 60 * 1000 < now
        · rw [if_pos hexp] at hdec
          simp only [Except.error.injEq] at hdec
          exact Or.inr (Or.inr hdec.symm)
        · rw [if_neg hexp] at hdec
          cases hdec
  refine ⟨hprop, hcases, ?_⟩
  rcases hcases with h | h | h <;> subst h <;> decide

theorem c3_envelope_failure_amended_witness :
    completeLogin idCipher engSome db0 ['k'] 900001 ⟨['e'], ['r'], sealedNull, none⟩ =
      (.error (.api .BAD_REQUEST ("Login state has expired".data)), db0) ∧
    ((OpaqueFailure.api .BAD_REQUEST ("Login state has expired".data)) = .decryptFailed ∨
      (OpaqueFailure.api .BAD_REQUEST ("Login state has expired".data)) = .jsonParseFailed ∨
      (OpaqueFailure.api .BAD_REQUEST ("Login state has expired".data)) =
        .api .BAD_REQUEST ("Login state has expired".data)) ∧
    (OpaqueFailure.api .BAD_REQUEST ("Login state has expired".data)) ≠
      .api .UNAUTHORIZED ("Login failed".data) :=
  c3_envelope_failure_amended idCipher engSome db0 ['k'] 900001 ⟨['e'], ['r'], sealedNull, none⟩
    (.api .BAD_REQUEST ("Login state has expired".data)) (by decide)

/-- Fixtures for the login-challenge claims: a stored user without any
opaque account, and concrete random values for the decoy path. -/
def user1 : UserSnap := ⟨['u', '1'], ['e'], ['U']⟩

def dbUser1 : DB := ⟨[user1], [], [], 5⟩

def effA : ChallengeEffects := ⟨['d', 'd'], ['r', 'i'], ['r', 'n']⟩

def stateReal : Str :=
  serializePayload ⟨[], some user1, 0⟩ ++
    List.replicate (1024 - byteLength (serializePayload ⟨[], some user1, 0⟩)) ' '

/-- C4 counterexample: for an email whose user exists but has no opaque
credential record, `getLoginChallenge` does use the decoy record, but the
envelope it seals carries the REAL user snapshot — not a synthesized
random, non-existent identity as the claim states for this case. -/
theorem c4_decoy_snapshot_counterexample :
    getLoginChallenge idCipher engSome effA ['s'] ['k'] dbUser1 0 ['e']
        (List.replicate 128 'A') = .ok ⟨[], stateReal⟩ ∧
    decryptServerLoginState idCipher stateReal ['k'] 0 = .ok ⟨[], some user1, 0⟩ ∧
    (some user1 ≠ some ⟨effA.randId, ['e'], effA.randName⟩) := by decide

/-- C4 amended: in `getLoginChallenge`, when no user is found the decoy
record is used and a synthesized snapshot (random identifier, the requested
email, random display name) is sealed; when the user is found but has no
opaque credential record, the decoy record is used but the REAL user
snapshot is sealed. -/
theorem c4_decoy_snapshot_amended (C : Cipher) (E : Engine) (eff : ChallengeEffects)
    (serverKey secret : Str) (db : DB) (now : Nat) (email loginRequest : Str)
    (hval : validateBase64Length loginRequest LOGIN_REQUEST_LENGTH
      ("login request".data) = .ok ()) :
    (findUserByEmailDB db email = none →
      getLoginChallenge C E eff serverKey secret db now email loginRequest =
        (match encryptServerLoginState C
            (E.startLogin email loginRequest serverKey eff.dummyRecord).2 secret
            (some ⟨eff.randId, email, eff.randName⟩) now with
        | .error e => .error e
        | .ok enc => .ok ⟨(E.startLogin email loginRequest serverKey eff.dummyRecord).1,
            enc⟩)) ∧
    (∀ user, findUserByEmailDB db email = some user →
      findOpaqueAccountDB db user.id = none →
      getLoginChallenge C E eff serverKey secret db now email loginRequest =
        (match encryptServerLoginState C
            (E.startLogin email loginRequest serverKey eff.dummyRecord).2 secret
            (some user) now with
        | .error e => .error e
        | .ok enc => .ok ⟨(E.startLogin email loginRequest serverKey eff.dummyRecord).1,
            enc⟩)) := by
  constructor
  · intro hfind
    simp only [getLoginChallenge, hval, hfind]
  · intro user hfind hacc
    simp only [getLoginChallenge, hval, hfind, hacc]

theorem c4_decoy_snapshot_amended_witness :
    getLoginChallenge idCipher engSome effA ['s'] ['k'] dbUser1 0 ['e']
        (List.replicate 128 'A') =
      (match encryptServerLoginState idCipher
          (engSome.startLogin ['e'] (List.replicate 128 'A') ['s'] effA.dummyRecord).2 ['k']
          (some user1) 0 with
      | .error e => .error e
      | .ok enc =>
          .ok ⟨(engSome.startLogin ['e'] (List.replicate 128 'A') ['s'] effA.dummyRecord).1,
            enc⟩) :=
  (c4_decoy_snapshot_amended idCipher engSome effA ['s'] ['k'] dbUser1 0 ['e']
    (List.replicate 128 'A') (by decide)).2 user1 (by decide) (by decide)

/-- C8 counterexample: on a blob whose base64 decoding fails, the validator
does not fail with the `MalformedProtocolMessage` error carrying the field
name — the decode exception itself propagates, so the claim's "whenever
base64 decoding fails" half is false. -/
theorem c8_validator_counterexample :
    validateBase64Length (List.replicate 5 'A') 32 ("registration request".data) =
      .error .decodeFailed ∧
    (OpaqueFailure.decodeFailed ≠
      .api .BAD_REQUEST (('I' :: 'n' :: 'v' :: 'a' :: 'l' :: 'i' :: 'd' :: ' ' :: []) ++
        ("registration request".data))) := by decide

/-- C8 amended: when the blob decodes, the validators accept exactly the
in-constraint byte lengths and reject every other length with the
`BAD_REQUEST` error whose message is `Invalid ` followed by the field name
(never the raw value); when decoding fails, the decode exception propagates
instead of that error. -/
theorem c8_validator_amended (b fieldName : Str) (n lo hi : Nat) (bytes : List Nat) :
    (base64UrlDecode b = some bytes →
      (validateBase64Length b n fieldName = .ok () ↔ bytes.length = n) ∧
      (bytes.length ≠ n → validateBase64Length b n fieldName =
        .error (.api .BAD_REQUEST
          (('I' :: 'n' :: 'v' :: 'a' :: 'l' :: 'i' :: 'd' :: ' ' :: []) ++ fieldName))) ∧
      (validateBase64LengthRange b lo hi fieldName = .ok () ↔
        lo ≤ bytes.length ∧ bytes.length ≤ hi) ∧
      (bytes.length < lo ∨ bytes.length > hi →
        validateBase64LengthRange b lo hi fieldName =
          .error (.api .BAD_REQUEST
            (('I' :: 'n' :: 'v' :: 'a' :: 'l' :: 'i' :: 'd' :: ' ' :: []) ++ fieldName)))) ∧
    (base64UrlDecode b = none →
      validateBase64Length b n fieldName = .error .decodeFailed ∧
      validateBase64LengthRange b lo hi fieldName = .error .decodeFailed) := by
  constructor
  · intro hdec
    refine ⟨?_, ?_, ?_, ?_⟩
    · by_cases hlen : bytes.length = n
      · simp [validateBase64Length, hdec, hlen]
      · simp [validateBase64Length, hdec, hlen]
    · intro hlen
      simp [validateBase64Length, hdec, hlen]
    · by_cases hlen : bytes.length < lo ∨ bytes.length > hi
      · simp only [validateBase64LengthRange, hdec]
        rw [if_pos hlen]
        constructor
        · intro hcontra; cases hcontra
        · intro hcontra; omega
      · simp only [validateBase64LengthRange, hdec]
        rw [if_neg hlen]
        constructor
        · intro _; omega
        · intro _; rfl
    · intro hlen
      simp only [validateBase64LengthRange, hdec]
      rw [if_pos hlen]
  · intro hdec
    exact ⟨by simp [validateBase64Length, hdec], by simp [validateBase64LengthRange, hdec]⟩

theorem c8_validator_amended_witness :
    validateBase64Length (List.replicate 43 'A') 32 ("registration request".data) = .ok () ∧
    validateBase64Length (List.replicate 42 'A') 32 ("registration request".data) =
      .error (.api .BAD_REQUEST
        (('I' :: 'n' :: 'v' :: 'a' :: 'l' :: 'i' :: 'd' :: ' ' :: []) ++
          ("registration request".data))) ∧
    validateBase64LengthRange (List.replicate 227 'A') 170 200
      ("registration record".data) = .ok () ∧
    validateBase64Length (List.replicate 5 'A') 32 ("registration request".data) =
      .error .decodeFailed :=
  ⟨((c8_validator_amended (List.replicate 43 'A') ("registration request".data) 32 170 200
      (List.replicate 32 0)).1 (by decide)).1.mpr (by decide),
    ((c8_validator_amended (List.replicate 42 'A') ("registration request".data) 32 170 200
      (List.replicate 31 0)).1 (by decide)).2.1 (by decide),
    ((c8_validator_amended (List.replicate 227 'A') ("registration record".data) 32 170 200
      (List.replicate 170 0)).1 (by decide)).2.2.1.mpr (by decide),
    ((c8_validator_amended (List.replicate 5 'A') ("registration request".data) 32 170 200
      []).2 (by decide)).1⟩

/-- C9 counterexample: a sealed envelope is not one-shot — after a
successful `completeLogin`, presenting the very same envelope again (valid
proof, within the expiry window) succeeds a second time. -/
theorem c9_replay_counterexample :
    (completeLogin idCipher engSome db0 ['k'] 5 ⟨['e'], ['r'], sealedUser, none⟩).1.isOk =
      true ∧
    (completeLogin idCipher engSome
        (completeLogin idCipher engSome db0 ['k'] 5 ⟨['e'], ['r'], sealedUser, none⟩).2
        ['k'] 5 ⟨['e'], ['r'], sealedUser, none⟩).1.isOk = true := by decide

/-- C9 amended: nothing enforces single use — whenever a completion request
succeeds (envelope opens, session key derived, snapshot present), replaying
the identical request against the resulting store succeeds again, since no
record of envelope consumption is kept (the replay gap the design notes
flag). -/
theorem c9_replay_amended (C : Cipher) (E : Engine) (db : DB) (secret : Str) (now : Nat)
    (body : CompleteLoginBody) (data : LoginStatePayload) (u : UserSnap) (k : Str)
    (hdec : decryptServerLoginState C body.encryptedServerState secret now = .ok data)
    (hkey : E.finishLogin body.loginResult data.serverLoginState = some k)
    (huser : data.user = some u) :
    (completeLogin C E db secret now body).1.isOk = true ∧
    (completeLogin C E (completeLogin C E db secret now body).2 secret now body).1.isOk =
      true := by
  simp [completeLogin, hdec, hkey, huser, createSessionDB, Except.isOk, Except.toBool]

theorem c9_replay_amended_witness :
    (completeLogin idCipher engSome db0 ['k'] 5 ⟨['e'], ['r'], sealedUser, none⟩).1.isOk =
      true ∧
    (completeLogin idCipher engSome
        (completeLogin idCipher engSome db0 ['k'] 5 ⟨['e'], ['r'], sealedUser, none⟩).2
        ['k'] 5 ⟨['e'], ['r'], sealedUser, none⟩).1.isOk = true :=
  c9_replay_amended idCipher engSome db0 ['k'] 5 ⟨['e'], ['r'], sealedUser, none⟩
    payloadUser ⟨['i'], ['e'], ['n']⟩ ['k'] (by decide) (by decide) (by decide)

end BetterAuthOpaque
